import Mathlib

/-!
Verification development for the ai-prompt-app backend: a shallow embedding of
the retrieval-and-answer orchestration (embedding service vector search, the
AI service retry/fallback loop, and the fallback response generator), with
theorems settling the specification claims about these components.

Modelling conventions:
* JavaScript numbers that only ever hold exact decimal literals and results of
  additions/multiplications/divisions on them are modelled as `ℚ`; `Math.sqrt`
  is an explicit function parameter (named `sqrt`) wherever the source calls it,
  so no property proved here depends on a particular square-root rounding.
* Thrown JS exceptions are modelled with `Except`; `Date.now()` readings are
  explicit inputs.
-/

/-- JS `Number.prototype.toFixed(1)` on a non-negative exact rational:
round to one decimal digit, half away from zero. -/
def toFixed1Nonneg (q : ℚ) : String :=
  let n : ℤ := (q * 10 + 1/2).floor
  toString (n / 10) ++ "." ++ toString (n % 10)

/-- JS `Number.prototype.toFixed(1)` (sign handled as in JS). -/
def toFixed1 (q : ℚ) : String :=
  if q < 0 then "-" ++ toFixed1Nonneg (-q) else toFixed1Nonneg q

/-- JS `String.prototype.includes` (substring containment). -/
def strIncludes (s sub : String) : Bool :=
  decide (sub.toList <:+: s.toList)

/-- JS `String.prototype.substring(0, 50)`. -/
def substring50 (s : String) : String :=
  String.mk (s.toList.take 50)

/-- A record from the `prompts` collection (`PromptDocument` in
`backend/src/types.ts`): a stored question/answer pair with an optional
embedding vector. -/
structure PromptDocument where
  prompt : String
  response : String
  embedding : Option (List ℚ)
  createdAt : Int
  updatedAt : Int
deriving Repr, DecidableEq

/-- One scored match produced by vector search (`VectorSearchResult`). -/
structure VectorSearchResult where
  document : PromptDocument
  similarity : ℚ
deriving Repr, DecidableEq

/-! ## EmbeddingService (backend/src/services/embeddingService.ts) -/

/-- `EmbeddingService.calculateSimilarity(a, b)`: throws
`"Vector dim mismatch"` when the lengths differ, otherwise returns the cosine
similarity `dot / (sqrt na * sqrt nb)`, with `0` when the magnitude product is
zero (`mag ? dot / mag : 0`).  `sqrt` models `Math.sqrt`. -/
def calculateSimilarity (sqrt : ℚ → ℚ) (a b : List ℚ) : Except String ℚ :=
  if a.length ≠ b.length then .error "Vector dim mismatch"
  else
    let dot := (a.zip b).foldl (fun acc p => acc + p.1 * p.2) 0
    let na := a.foldl (fun acc x => acc + x ^ 2) 0
    let nb := b.foldl (fun acc x => acc + x ^ 2) 0
    let mag := sqrt na * sqrt nb
    .ok (if mag = 0 then 0 else dot / mag)

/-- JS `Array.prototype.map` with a callback that can throw: elements are
processed left to right and the first thrown error aborts the whole map. -/
def mapExcept {α β : Type} (f : α → Except String β) : List α → Except String (List β)
  | [] => .ok []
  | a :: as =>
    match f a with
    | .error e => .error e
    | .ok b =>
      match mapExcept f as with
      | .error e => .error e
      | .ok bs => .ok (b :: bs)

/-- `EmbeddingService.findSimilarDocuments(queryEmb, docs, threshold, limit)`:
keep candidates whose `embedding?.length` is truthy (present and non-empty),
score each against the query (a thrown dimension mismatch propagates, as in the
source, because nothing catches it), keep scores `≥ threshold`, sort
descending by similarity (stable, as `Array.prototype.sort`), and truncate to
`limit`. -/
def scoreDoc (sqrt : ℚ → ℚ) (queryEmb : List ℚ) (d : PromptDocument) :
    Except String VectorSearchResult :=
  match calculateSimilarity sqrt queryEmb (d.embedding.getD []) with
  | .error e => .error e
  | .ok s => .ok { document := d, similarity := s }

def findSimilarDocuments (sqrt : ℚ → ℚ) (queryEmb : List ℚ)
    (docs : List PromptDocument) (threshold : ℚ := 7/10) (limit : Nat := 5) :
    Except String (List VectorSearchResult) :=
  let withEmb := docs.filter fun d => !(d.embedding.getD []).isEmpty
  match mapExcept (scoreDoc sqrt queryEmb) withEmb with
  | .error e => .error e
  | .ok scored =>
    let filtered := scored.filter fun r => decide (threshold ≤ r.similarity)
    let sorted := filtered.mergeSort fun x y => decide (y.similarity ≤ x.similarity)
    .ok (sorted.take limit)

/-- A JS runtime value as far as `isValidEmbedding` can distinguish it:
a number (finite, `NaN`, or an infinity) or a value of any other type. -/
inductive JsVal where
  | finiteNum (q : ℚ)
  | nanNum
  | posInfNum
  | negInfNum
  | nonNumber
deriving Repr, DecidableEq

/-- `typeof v === "number"`: true for every number, finite or not. -/
def typeofIsNumber : JsVal → Bool
  | .nonNumber => false
  | _ => true

/-- `Number.isFinite(v)`: true only for finite numbers. -/
def jsIsFinite : JsVal → Bool
  | .finiteNum _ => true
  | _ => false

/-- `EmbeddingService.EMBEDDING_DIMENSIONS`. -/
def EMBEDDING_DIMENSIONS : Nat := 1536

/-- `EmbeddingService.isValidEmbedding(vec)` as written in the source:
`Array.isArray(vec) && vec.length === EMBEDDING_DIMENSIONS &&
vec.every(v => typeof v === "number")` (the argument is modelled as a list, so
`Array.isArray` is true). -/
def isValidEmbedding (vec : List JsVal) : Bool :=
  vec.length == EMBEDDING_DIMENSIONS && vec.all typeofIsNumber

/-- The validation the spec describes for `isValidEmbedding`: exact length D
and every element a finite number.  Stated from the spec's words, for
comparison with the source's `isValidEmbedding`. -/
def isValidEmbeddingSpec (vec : List JsVal) : Bool :=
  vec.length == EMBEDDING_DIMENSIONS && vec.all jsIsFinite

/-! ## FallbackResponseGenerator
(backend/src/services/ai/FallbackResponseGenerator.ts) -/

/-- JS `\s` as used by the insight regexes (space-like characters). -/
def isJsSpace (c : Char) : Bool := c.isWhitespace

/-- The lines `String.prototype.match` with the `m` flag scans. -/
def jsLines (s : String) : List String := s.splitOn "\n"

/-- Match one line against `/^\d+[\.)]\s+(.+)$/` and, on a match, return what
`item.replace(/^\d+[\.)]\s+/, "")` leaves (matches whose remainder is pure
whitespace are dropped here; the source keeps them but discards them at the
`cleaned.length > 10` check, so the resulting insight list is the same). -/
def matchNumberedItem (line : String) : Option String :=
  let cs := line.toList
  let digits := cs.takeWhile Char.isDigit
  match cs.dropWhile Char.isDigit with
  | [] => none
  | c :: rest =>
    if digits.isEmpty then none
    else if c = '.' ∨ c = ')' then
      let ws := rest.takeWhile isJsSpace
      let body := rest.dropWhile isJsSpace
      if ws.isEmpty ∨ body.isEmpty then none else some (String.mk body)
    else none

/-- Match one line against `/^[\-\*•]\s+(.+)$/` and, on a match, return what
`item.replace(/^[\-\*•]\s+/, "")` leaves (same whitespace-remainder note as
`matchNumberedItem`). -/
def matchBulletItem (line : String) : Option String :=
  match line.toList with
  | [] => none
  | c :: rest =>
    if c = '-' ∨ c = '*' ∨ c = '•' then
      let ws := rest.takeWhile isJsSpace
      let body := rest.dropWhile isJsSpace
      if ws.isEmpty ∨ body.isEmpty then none else some (String.mk body)
    else none

/-- Separator class of `response.split(/[.!?]+/)`. -/
def isSentenceSep (c : Char) : Bool := c = '.' ∨ c = '!' ∨ c = '?'

/-- `String.prototype.split` on `/[.!?]+/`: split on maximal non-empty runs of
sentence separators (empty leading/trailing pieces kept, as in JS).  `fuel`
only bounds the recursion; every step consumes at least one character, so the
wrapper's `length + 1` supply never runs out. -/
def splitSentencesAux (fuel : Nat) (l : List Char) (acc : List Char) :
    List (List Char) :=
  match fuel with
  | 0 => [acc.reverse]
  | fuel + 1 =>
    match l with
    | [] => [acc.reverse]
    | c :: cs =>
      if isSentenceSep c then
        acc.reverse :: splitSentencesAux fuel (cs.dropWhile isSentenceSep) []
      else
        splitSentencesAux fuel cs (c :: acc)

def splitSentences (s : String) : List String :=
  (splitSentencesAux (s.toList.length + 1) s.toList []).map String.mk

/-- `FallbackResponseGenerator.isKeyInsight`. -/
def keyPhrases : List String :=
  ["best practice", "important", "key", "essential", "critical",
   "should", "must", "recommended", "avoid", "ensure",
   "optimize", "improve", "effective", "efficient", "secure"]

def isKeyInsight (sentence : String) : Bool :=
  let lowerSentence := sentence.toLower
  keyPhrases.any fun phrase => strIncludes lowerSentence phrase

/-- One candidate-insight step: the body of
`if (!seenInsights.has(key) && cond) { insights.push(cleaned); seenInsights.add(key); }`
with `key = cleaned.toLowerCase().substring(0, 50)`.  The state is
`(insights, seen keys)`. -/
def pushInsight (cond : String → Bool) (st : List String × List String)
    (cleaned : String) : List String × List String :=
  let key := substring50 cleaned.toLower
  if !(st.2.contains key) && cond cleaned then (st.1 ++ [cleaned], st.2 ++ [key])
  else st

/-- The per-result body of `extractKeyInsights`' main loop: numbered items,
then bullet items, then up to two long sentences containing a key phrase. -/
def insightsOfResult (st : List String × List String) (r : VectorSearchResult) :
    List String × List String :=
  let response := r.document.response
  let numbered := (((jsLines response).filterMap matchNumberedItem).take 3).map String.trim
  let st1 := numbered.foldl (pushInsight fun c => decide (c.length > 10)) st
  let bullets := (((jsLines response).filterMap matchBulletItem).take 3).map String.trim
  let st2 := bullets.foldl (pushInsight fun c => decide (c.length > 10)) st1
  let sentences := (splitSentences response).filter fun s => decide (s.trim.length > 20)
  (sentences.take 2).foldl (fun st s => pushInsight isKeyInsight st s.trim) st2

/-- The result loop of `extractKeyInsights`, with its
`if (insights.length >= 5) break`. -/
def extractKeyInsightsGo (st : List String × List String) :
    List VectorSearchResult → List String × List String
  | [] => st
  | r :: rs =>
    let st' := insightsOfResult st r
    if st'.1.length ≥ 5 then st' else extractKeyInsightsGo st' rs

/-- `FallbackResponseGenerator.extractKeyInsights(results)`. -/
def extractKeyInsights (results : List VectorSearchResult) : List String :=
  (extractKeyInsightsGo ([], []) results).1.take 5

/-- `FallbackResponseGenerator.calculateAverageSimilarity(results)`. -/
def calculateAverageSimilarity (results : List VectorSearchResult) : ℚ :=
  if results.length = 0 then 0
  else (results.foldl (fun acc r => acc + r.similarity) 0) / results.length

/-- `FallbackResponseGenerator.calculateConfidence(results, avgSimilarity)`. -/
def calculateConfidence (results : List VectorSearchResult) (avgSimilarity : ℚ) : ℚ :=
  if results.length = 0 then 1/10
  else
    let sims := results.map fun r => r.similarity
    let topSimilarity := sims.foldl max (sims.headD 0)
    let sourceCount : ℚ := min (results.length : ℚ) 5
    let similarityFactor := (avgSimilarity + topSimilarity) / 2
    let sourceFactor := sourceCount / 5
    let qualityPenalty : ℚ := if topSimilarity < 1/2 then 3/10 else 0
    max (1/10) (min (85/100)
      (3/10 + similarityFactor * (4/10) + sourceFactor * (1/10) - qualityPenalty))

/-- The contextual introduction `createStructuredResponse` opens with. -/
def introLine (query : String) (n : Nat) : String :=
  "Based on your question about \"" ++ query ++ "\", I found " ++ toString n ++
    " relevant " ++ (if n = 1 then "entry" else "entries") ++
    " in our knowledge base.\n\n"

/-- One entry of the `**Additional Information:**` block (empty for the best
match when it was already shown as the most relevant answer). -/
def sourceEntry (bestSim : ℚ) (p : Nat × VectorSearchResult) : String :=
  if p.1 = 0 ∧ bestSim ≥ 8/10 then ""
  else
    "**Source " ++ toString (p.1 + 1) ++ "** (" ++ toFixed1 (p.2.similarity * 100) ++
      "% match):\n" ++ "*Question:* " ++ p.2.document.prompt ++ "\n" ++
      "*Answer:* " ++ p.2.document.response ++ "\n\n"

/-- `FallbackResponseGenerator.createStructuredResponse(query, similarDocuments)`.
The source reads `topResults[0]` unconditionally; it is only called with a
non-empty list (`generateFallbackResponse` handles the empty case first), and
the empty case here returns `""`. -/
def createStructuredResponse (query : String)
    (similarDocuments : List VectorSearchResult) : String :=
  let topResults := similarDocuments.take 5
  match topResults with
  | [] => ""
  | bestMatch :: _ =>
    let bestSimilarity := toFixed1 (bestMatch.similarity * 100)
    let r1 := introLine query topResults.length
    let r2 :=
      if bestMatch.similarity ≥ 8/10 then
        r1 ++ "**Most Relevant Answer** (" ++ bestSimilarity ++ "% match):\n" ++
          bestMatch.document.response ++ "\n\n"
      else r1
    let insights := extractKeyInsights topResults
    let r3 :=
      if insights.length > 0 then
        r2 ++ "**Key Insights:**\n" ++
          String.join (insights.enum.map fun p =>
            toString (p.1 + 1) ++ ". " ++ p.2 ++ "\n") ++ "\n"
      else r2
    let r4 :=
      if topResults.length > 1 ∨ bestMatch.similarity < 8/10 then
        r3 ++ "**Additional Information:**\n\n" ++
          String.join (topResults.enum.map (sourceEntry bestMatch.similarity))
      else r3
    let r5 := r4 ++ "---\n" ++ "*This response is compiled from " ++
      toString topResults.length ++ " related " ++
      (if topResults.length = 1 then "entry" else "entries") ++
      " in our knowledge base. "
    r5 ++
      (if bestMatch.similarity ≥ 9/10 then
        "We found a highly relevant match (" ++ bestSimilarity ++ "% similarity).*"
      else if bestMatch.similarity ≥ 7/10 then
        "We found good matches with " ++ bestSimilarity ++ "% similarity.*"
      else
        "The closest matches have " ++ bestSimilarity ++
          "% similarity. Consider refining your question for better results.*")

/-- `FallbackResponseGenerator.generateSearchSuggestions(query)`. -/
def generateSearchSuggestions (query : String) : List String :=
  let suggestions := ["Try using different keywords or synonyms",
    "Make your question more specific",
    "Break complex questions into smaller parts",
    "Check for spelling errors"]
  let lowerQuery := query.toLower
  let s1 :=
    if strIncludes lowerQuery "how" || strIncludes lowerQuery "what" then
      suggestions ++ ["Try rephrasing as a declarative statement"]
    else suggestions
  let s2 :=
    if lowerQuery.length < 10 then s1 ++ ["Provide more context in your question"]
    else s1
  let s3 :=
    if strIncludes lowerQuery "best" || strIncludes lowerQuery "better" then
      s2 ++ ["Try searching for specific techniques or methods"]
    else s2
  s3.take 5

/-- The result of one fallback synthesis (`FallbackResponse`; its metadata is
flattened, `provider` is the constant `"vector-fallback"`). -/
structure FallbackResponse where
  content : String
  provider : String := "vector-fallback"
  sourceCount : Nat
  avgSimilarity : ℚ
  responseTime : Int
  confidence : ℚ
deriving Repr, DecidableEq

/-- `FallbackResponseGenerator.generateNoResultsResponse(query, startTime)`;
`endTime` models the final `Date.now()`. -/
def generateNoResultsResponse (query : String) (startTime endTime : Int) :
    FallbackResponse :=
  let suggestions := generateSearchSuggestions query
  let c1 := "I couldn\x27t find any relevant information in our knowledge base for \"" ++
    query ++ "\".\n\n"
  let c2 := c1 ++ "**Suggestions to get better results:**\n" ++
    String.join (suggestions.enum.map fun p => toString (p.1 + 1) ++ ". " ++ p.2 ++ "\n")
  let c3 := c2 ++
    "\n*No matching entries found in the knowledge base. Consider adding more content or refining your search.*"
  { content := c3, sourceCount := 0, avgSimilarity := 0,
    responseTime := endTime - startTime, confidence := 1/10 }

/-- `FallbackResponseGenerator.generateFallbackResponse(query, similarDocuments)`;
`startTime`/`endTime` model the two `Date.now()` readings. -/
def generateFallbackResponse (query : String)
    (similarDocuments : List VectorSearchResult) (startTime endTime : Int) :
    FallbackResponse :=
  if similarDocuments.length = 0 then generateNoResultsResponse query startTime endTime
  else
    let content := createStructuredResponse query similarDocuments
    let avgSimilarity := calculateAverageSimilarity similarDocuments
    let confidence := calculateConfidence similarDocuments avgSimilarity
    { content := content, sourceCount := similarDocuments.length,
      avgSimilarity := avgSimilarity, responseTime := endTime - startTime,
      confidence := confidence }

/-! ## AIService (backend/src/services/ai/AIService.ts) -/

/-- The typed provider error object (`AIProviderError` in
backend/src/services/ai/AIProvider.ts); `type` kept as a string. -/
structure AIProviderError where
  type : String
  message : String
  retryable : Bool
deriving Repr, DecidableEq

/-- A successful `AIResponse` from a provider. -/
structure AIResponse where
  content : String
  provider : String
  model : String
  tokens : Option Nat
  responseTime : Int
  confidence : Option ℚ
deriving Repr, DecidableEq

/-- What one `primaryProvider.generateResponse` call does: return a response,
throw a typed `AIProviderError` object (`throw this.handleError(error)` in
`OllamaProvider`), or throw an `Error` instance. -/
inductive GenOutcome where
  | success (r : AIResponse)
  | throwProviderError (e : AIProviderError)
  | throwJsError (msg : String)
deriving Repr

/-- A caught JS exception as the catch block of `generateResponse`
distinguishes it: an `Error` instance, or anything else (here: a thrown
`AIProviderError` object). -/
inductive Thrown where
  | jsError (msg : String)
  | providerError (e : AIProviderError)
deriving Repr, DecidableEq

/-- The catch block's classification: `error instanceof Error ?
{ type: "unknown", message: error.message, retryable: true } :
(error as AIProviderError)`. -/
def classifyCaught : Thrown → AIProviderError
  | .jsError msg => { type := "unknown", message := msg, retryable := true }
  | .providerError e => e

/-- `AIServiceConfig` (the per-provider connection configs are omitted; which
providers are registered is part of `AIServiceState`). -/
structure AIServiceConfig where
  primaryProvider : String
  fallbackEnabled : Bool
  retryAttempts : Nat
  retryDelay : Nat
  healthCheckInterval : Int
deriving Repr

/-- The mutable service state: the provider registry keys and the two health
maps.  For every provider the source constructs, the registry key equals the
provider's own reported name (`OllamaProvider` is registered as `"ollama"` and
calls `super("ollama", config)`), so health-map keys coincide with registry
keys. -/
structure AIServiceState where
  providers : List String
  healthStatus : List (String × Bool)
  lastHealthCheck : List (String × Int)
deriving Repr, DecidableEq

/-- `Map.prototype.set`: overwrite a key in an association list. -/
def mapSet {β : Type} (k : String) (v : β) : List (String × β) → List (String × β)
  | [] => [(k, v)]
  | (k', v') :: rest => if k' = k then (k, v) :: rest else (k', v') :: mapSet k v rest

/-- `Map.prototype.get` (`none` for a missing key). -/
def mapGet {β : Type} (k : String) : List (String × β) → Option β
  | [] => none
  | (k', v) :: rest => if k' = k then some v else mapGet k rest

/-- The external world one `generateResponse` call interacts with: the outcome
of the k-th live provider health probe, the outcome of the k-th provider
generation call, the `Date.now()` reading inside the k-th loop iteration's
health check, and the `Date.now()` readings at function start and at fallback
construction. -/
structure ProviderEnv where
  healthOutcome : Nat → Except String Bool
  genOutcome : Nat → GenOutcome
  healthTime : Nat → Int
  startTime : Int
  fallbackTime : Int

/-- A generation attempt that fails retryably after the catch block's
classification: the provider throws a typed error marked retryable, or any
`Error` instance (which is always classified retryable). -/
def genFailsRetryably (o : GenOutcome) : Prop :=
  (∃ e, o = .throwProviderError e ∧ e.retryable = true) ∨ ∃ m, o = .throwJsError m

/-- Counters of the observable effects of one `generateResponse` call:
loop iterations entered, provider generation calls, live health-endpoint
probes, and the backoff sleeps performed (in ms, in order). -/
structure GenTrace where
  attempts : Nat := 0
  genCalls : Nat := 0
  liveHealthCalls : Nat := 0
  sleeps : List Nat := []
deriving Repr, DecidableEq

/-- `AIService.checkProviderHealth(provider)` at time `now`, where `liveIdx`
numbers the live probes made so far: within `healthCheckInterval` of the last
check the cached status (default `false`) is returned without touching the
provider; otherwise a live probe runs and both maps are refreshed (a thrown
probe error is recorded as unhealthy).  Returns (result, new state, whether a
live probe ran). -/
def checkProviderHealth (cfg : AIServiceConfig) (env : ProviderEnv)
    (st : AIServiceState) (liveIdx : Nat) (now : Int) (providerName : String) :
    Bool × AIServiceState × Bool :=
  let lastCheck := (mapGet providerName st.lastHealthCheck).getD 0
  if now - lastCheck < cfg.healthCheckInterval then
    ((mapGet providerName st.healthStatus).getD false, st, false)
  else
    match env.healthOutcome liveIdx with
    | .ok isHealthy =>
      (isHealthy,
        { st with healthStatus := mapSet providerName isHealthy st.healthStatus,
                  lastHealthCheck := mapSet providerName now st.lastHealthCheck },
        true)
    | .error _ =>
      (false,
        { st with healthStatus := mapSet providerName false st.healthStatus,
                  lastHealthCheck := mapSet providerName now st.lastHealthCheck },
        true)

/-- The `try` block of one loop iteration of `AIService.generateResponse`:
resolve the primary provider (`throw new Error("Primary AI provider not
available")` when the registry has none), gate on `checkProviderHealth`
(`throw new Error("Primary provider failed health check")` when unhealthy),
then make the generation call.  Counts the iteration and any live probe and
generation call in the trace. -/
def runAttempt (cfg : AIServiceConfig) (env : ProviderEnv) (st : AIServiceState)
    (tr : GenTrace) : Except Thrown AIResponse × AIServiceState × GenTrace :=
  let iterIdx := tr.attempts
  let tr1 := { tr with attempts := tr.attempts + 1 }
  if cfg.primaryProvider ∈ st.providers then
    let hc := checkProviderHealth cfg env st tr1.liveHealthCalls
      (env.healthTime iterIdx) cfg.primaryProvider
    let st1 := hc.2.1
    let tr2 :=
      if hc.2.2 then { tr1 with liveHealthCalls := tr1.liveHealthCalls + 1 } else tr1
    if hc.1 then
      let res : Except Thrown AIResponse :=
        match env.genOutcome tr2.genCalls with
        | .success r => .ok r
        | .throwProviderError e => .error (.providerError e)
        | .throwJsError m => .error (.jsError m)
      (res, st1, { tr2 with genCalls := tr2.genCalls + 1 })
    else (.error (.jsError "Primary provider failed health check"), st1, tr2)
  else (.error (.jsError "Primary AI provider not available"), st, tr1)

/-- `AIServiceResponse.metadata`. -/
structure ServiceMeta where
  provider : String
  model : Option String := none
  tokens : Option Nat := none
  responseTime : Int
  confidence : ℚ
  retryCount : Option Nat := none
  fallbackReason : Option String := none
deriving Repr, DecidableEq

/-- `AIServiceResponse.source`. -/
inductive Source where
  | ai
  | fallback
deriving Repr, DecidableEq

/-- `AIServiceResponse`. -/
structure AIServiceResponse where
  content : String
  source : Source
  metadata : ServiceMeta
deriving Repr, DecidableEq

/-- The `source: "ai"` response returned on success: metadata spread from the
provider response, `confidence` replaced by 0.5 when absent or zero (JS `||`),
`retryCount` present only when at least one retry happened. -/
def mkAiResponse (r : AIResponse) (retryCount : Nat) : AIServiceResponse :=
  { content := r.content
    source := .ai
    metadata :=
      { provider := r.provider
        model := some r.model
        tokens := r.tokens
        responseTime := r.responseTime
        confidence :=
          match r.confidence with
          | some c => if c = 0 then 1/2 else c
          | none => 1/2
        retryCount := if retryCount > 0 then some retryCount else none
        fallbackReason := none } }

/-- Result of the retry loop: a successful AI response, or fall-through to the
code after the loop with the last error and the final `retryCount`. -/
inductive LoopExit where
  | success (resp : AIServiceResponse) (st : AIServiceState) (tr : GenTrace)
  | exhausted (lastError : Option AIProviderError) (retryCount : Nat)
      (st : AIServiceState) (tr : GenTrace)

/-- The `while (retryCount <= this.config.retryAttempts)` loop of
`AIService.generateResponse`.  On a caught error the loop breaks when the
classified error is not retryable or `retryCount >= retryAttempts`; otherwise
`retryCount` increments and (the guard `retryCount <= retryAttempts` then
always holding) an exponential backoff sleep of `retryDelay * 2^(retryCount-1)`
ms runs.  `fuel` only bounds the recursion: the loop re-enters only after
`retryCount` strictly increased and stayed `≤ retryAttempts`, so the top-level
supply of `retryAttempts + 1` is never exhausted. -/
def generateResponseLoop (cfg : AIServiceConfig) (env : ProviderEnv) :
    Nat → AIServiceState → Nat → Option AIProviderError → GenTrace → LoopExit
  | 0, st, retryCount, lastError, tr => .exhausted lastError retryCount st tr
  | fuel + 1, st, retryCount, _, tr =>
    match runAttempt cfg env st tr with
    | (.ok r, st', tr') => .success (mkAiResponse r retryCount) st' tr'
    | (.error thrown, st', tr') =>
      let lastError := classifyCaught thrown
      if !lastError.retryable || retryCount ≥ cfg.retryAttempts then
        .exhausted (some lastError) retryCount st' tr'
      else
        let retryCount' := retryCount + 1
        let tr'' :=
          if retryCount' ≤ cfg.retryAttempts then
            { tr' with sleeps := tr'.sleeps ++ [cfg.retryDelay * 2 ^ (retryCount' - 1)] }
          else tr'
        generateResponseLoop cfg env fuel st' retryCount' (some lastError) tr''

/-- `AIService.generateResponse(query, similarDocuments)`: the retry loop,
then — when it falls through — the fallback response (when
`fallbackEnabled`) or a thrown `AI service failed: ...` error.  Returns the
result together with the final service state and the effect trace. -/
def generateResponse (cfg : AIServiceConfig) (env : ProviderEnv)
    (st : AIServiceState) (query : String)
    (similarDocuments : List VectorSearchResult) :
    Except String AIServiceResponse × AIServiceState × GenTrace :=
  match generateResponseLoop cfg env (cfg.retryAttempts + 1) st 0 none {} with
  | .success resp st' tr => (.ok resp, st', tr)
  | .exhausted lastError retryCount st' tr =>
    let lastMsg := (lastError.map fun e => e.message).getD ""
    if cfg.fallbackEnabled then
      let fb := generateFallbackResponse query similarDocuments env.startTime env.fallbackTime
      (.ok
        { content := fb.content
          source := .fallback
          metadata :=
            { provider := "vector-fallback"
              responseTime := env.fallbackTime - env.startTime
              confidence := fb.confidence
              retryCount := some retryCount
              fallbackReason :=
                some (if lastMsg = "" then "AI provider unavailable" else lastMsg) } },
        st', tr)
    else
      (.error ("AI service failed: " ++
        (if lastMsg = "" then "Unknown error" else lastMsg)), st', tr)

/-! ## The smart-search answer path
(backend/src/services/databaseService.ts and
`EmbeddingService.generateSmartResponse`) -/

/-- `EmbeddingService.generateSmartResponse(query, similar)`: delegate to the
AI service when one is set, else return the minimal embedding-only fallback
response.  The middle component carries the AI service's final state and
effect trace when one ran; the `Bool` records whether
`AIService.generateResponse` — the resilient multi-provider path — was
invoked. -/
def generateSmartResponse
    (ai : Option (AIServiceConfig × ProviderEnv × AIServiceState))
    (query : String) (similar : List VectorSearchResult) :
    Except String AIServiceResponse × Option (AIServiceState × GenTrace) × Bool :=
  match ai with
  | some (cfg, env, st) =>
    let out := generateResponse cfg env st query similar
    (out.1, some (out.2.1, out.2.2), true)
  | none =>
    (.ok
      { content := "AI service unavailable; please try later."
        source := .fallback
        metadata :=
          { provider := "ollama-embedding-only", responseTime := 0, confidence := 1/5 } },
      none, false)

/-- `DatabaseService.vectorSearch(query, threshold, limit)`: vectorize the
query (`embResult` models the embedding provider call's outcome), fetch the
stored documents (`docs`), and run `findSimilarDocuments`; any error is
re-thrown as "Failed to perform vector search". -/
def vectorSearch (sqrt : ℚ → ℚ) (embResult : Except String (List ℚ))
    (docs : List PromptDocument) (threshold : ℚ) (limit : Nat) :
    Except String (List VectorSearchResult) :=
  match embResult with
  | .error _ => .error "Failed to perform vector search"
  | .ok queryEmb =>
    match findSimilarDocuments sqrt queryEmb docs threshold limit with
    | .error _ => .error "Failed to perform vector search"
    | .ok r => .ok r

/-- `DatabaseService.smartSearch(query, threshold, limit)` as written in the
source: vector search, then the answer is produced by
`embeddingService.generateSmartResponse` (the direct
`this.aiService.generateResponse` branch is commented out); any error is
re-thrown as "Failed to perform smart search".  The `Bool` records whether
`AIService.generateResponse` was invoked anywhere below this call. -/
def smartSearch (sqrt : ℚ → ℚ) (embResult : Except String (List ℚ))
    (docs : List PromptDocument) (threshold : ℚ) (limit : Nat)
    (ai : Option (AIServiceConfig × ProviderEnv × AIServiceState))
    (query : String) :
    Except String AIServiceResponse × Option (AIServiceState × GenTrace) × Bool :=
  match vectorSearch sqrt embResult docs threshold limit with
  | .error _ => (.error "Failed to perform smart search", none, false)
  | .ok similarDocuments =>
    match generateSmartResponse ai query similarDocuments with
    | (.error _, stTr, b) => (.error "Failed to perform smart search", stTr, b)
    | (.ok resp, stTr, b) => (.ok resp, stTr, b)


/-! ## Concrete fixtures used by witnesses and counterexamples -/

/-- A candidate whose embedding matches the query dimension used below. -/
def docEmbA : PromptDocument :=
  { prompt := "p1", response := "r1", embedding := some [1, 0],
    createdAt := 0, updatedAt := 0 }

/-- A candidate with no embedding. -/
def docNoEmb : PromptDocument :=
  { prompt := "p2", response := "r2", embedding := none,
    createdAt := 0, updatedAt := 0 }

/-- A candidate whose non-empty embedding has the wrong dimension. -/
def docMismatch : PromptDocument :=
  { prompt := "p3", response := "r3", embedding := some [1, 2, 3],
    createdAt := 0, updatedAt := 0 }

/-- Stored records behind the ranked matches used for the fallback-synthesizer
claims. -/
def matchDoc1 : PromptDocument :=
  { prompt := "How to speed up my app?",
    response := "Use memoization to avoid recomputing results.",
    embedding := none, createdAt := 0, updatedAt := 0 }

def matchDoc2 : PromptDocument :=
  { prompt := "How to cache data?", response := "Cache hot data in memory.",
    embedding := none, createdAt := 0, updatedAt := 0 }

def matchDoc3 : PromptDocument :=
  { prompt := "What is a CDN?", response := "A CDN serves static assets.",
    embedding := none, createdAt := 0, updatedAt := 0 }

/-- A ranked match list with similarities 0.95, 0.82, 0.6 — the spec's own
example input for the fallback synthesizer. -/
def rankedMatches : List VectorSearchResult :=
  [{ document := matchDoc1, similarity := 95/100 },
   { document := matchDoc2, similarity := 82/100 },
   { document := matchDoc3, similarity := 6/10 }]

/-- A service configuration with the shape of `defaultAIServiceConfig`:
primary "ollama", fallback enabled, 2 retries, 1s base delay, 30s health
cache. -/
def cfgTest : AIServiceConfig :=
  { primaryProvider := "ollama", fallbackEnabled := true, retryAttempts := 2,
    retryDelay := 1000, healthCheckInterval := 30000 }

/-- Service state with the ollama provider registered and cached healthy. -/
def stHealthy : AIServiceState :=
  { providers := ["ollama"], healthStatus := [("ollama", true)],
    lastHealthCheck := [("ollama", 0)] }

/-- Service state with the ollama provider registered and cached unhealthy,
last checked at time 0. -/
def stUnhealthy : AIServiceState :=
  { providers := ["ollama"], healthStatus := [("ollama", false)],
    lastHealthCheck := [("ollama", 0)] }

/-- Service state with no provider registered at all. -/
def stNoProviders : AIServiceState :=
  { providers := [], healthStatus := [], lastHealthCheck := [] }

/-- A world where live health probes succeed and every generation call fails
with a retryable network error. -/
def envAlwaysFail : ProviderEnv :=
  { healthOutcome := fun _ => .ok true,
    genOutcome := fun _ => .throwProviderError
      { type := "network", message := "Network connection failed", retryable := true },
    healthTime := fun _ => 0, startTime := 0, fallbackTime := 5 }

/-- A world where live health probes succeed and the generation call fails
with a non-retryable auth error. -/
def envAuthFail : ProviderEnv :=
  { healthOutcome := fun _ => .ok true,
    genOutcome := fun _ => .throwProviderError
      { type := "auth", message := "Authentication failed", retryable := false },
    healthTime := fun _ => 0, startTime := 0, fallbackTime := 5 }

/-- A world observed at time 10, within the 30s health-cache interval of a
check recorded at time 0; generation would succeed if it were ever reached. -/
def envWithinInterval : ProviderEnv :=
  { healthOutcome := fun _ => .ok true,
    genOutcome := fun _ => .success
      { content := "hi", provider := "ollama", model := "llama3.1:latest",
        tokens := none, responseTime := 1, confidence := some (9/10) },
    healthTime := fun _ => 10, startTime := 10, fallbackTime := 12 }

/-! ## Helper lemmas -/

theorem mapExcept_ok_forall {α β : Type} (f : α → Except String β) :
    ∀ (l : List α) (ys : List β), mapExcept f l = .ok ys → ∀ x ∈ l, ∃ y, f x = .ok y := by
  intro l
  induction l with
  | nil => intro ys _ x hx; cases hx
  | cons a as ih =>
    intro ys h x hx
    simp only [mapExcept] at h
    cases hfa : f a with
    | error e => simp [hfa] at h
    | ok b =>
      simp only [hfa] at h
      cases hrest : mapExcept f as with
      | error e => simp [hrest] at h
      | ok bs =>
        simp only [hrest] at h
        rcases List.mem_cons.mp hx with rfl | hx'
        · exact ⟨b, hfa⟩
        · exact ih bs hrest x hx'

theorem mapExcept_error_of_mem {α β : Type} (f : α → Except String β) (m : String)
    (hall : ∀ x e, f x = .error e → e = m) :
    ∀ (l : List α) (x : α), x ∈ l → f x = .error m → mapExcept f l = .error m := by
  intro l
  induction l with
  | nil => intro x hx; cases hx
  | cons a as ih =>
    intro x hx hfx
    simp only [mapExcept]
    cases hfa : f a with
    | error e => simp only [hall a e hfa]
    | ok b =>
      rcases List.mem_cons.mp hx with rfl | hx'
      · rw [hfa] at hfx; cases hfx
      · rw [ih x hx' hfx]

/-! ## Claim theorems -/

/-- Claim C4. For every query vector, candidate list, threshold and limit: any
result list `findSimilarDocuments` returns has length at most `limit`, every
returned entry has `similarity ≥ threshold`, the entries are sorted
non-increasing by similarity; and when no candidate has a (non-empty)
embedding the result is the empty list, not an error. -/
theorem search_results_contract (sqrt : ℚ → ℚ) (queryEmb : List ℚ)
    (docs : List PromptDocument) (threshold : ℚ) (limit : Nat) :
    (∀ res, findSimilarDocuments sqrt queryEmb docs threshold limit = .ok res →
        res.length ≤ limit ∧ (∀ r ∈ res, threshold ≤ r.similarity) ∧
        res.Pairwise fun x y => y.similarity ≤ x.similarity) ∧
    ((∀ d ∈ docs, d.embedding.getD [] = []) →
        findSimilarDocuments sqrt queryEmb docs threshold limit = .ok []) := by
  constructor
  · intro res h
    simp only [findSimilarDocuments] at h
    split at h
    · cases h
    · rename_i scored heq
      injection h with h
      subst h
      refine ⟨List.length_take_le _ _, ?_, ?_⟩
      · intro r hr
        have hr2 : r ∈ (scored.filter fun r => decide (threshold ≤ r.similarity)).mergeSort
            (fun x y => decide (y.similarity ≤ x.similarity)) :=
          (List.take_sublist _ _).subset hr
        have hr3 := (List.mergeSort_perm _ _).subset hr2
        exact of_decide_eq_true (List.mem_filter.mp hr3).2
      · have htrans : ∀ a b c : VectorSearchResult,
            decide (b.similarity ≤ a.similarity) = true →
            decide (c.similarity ≤ b.similarity) = true →
            decide (c.similarity ≤ a.similarity) = true := by
          intro a b c hab hbc
          exact decide_eq_true (le_trans (of_decide_eq_true hbc) (of_decide_eq_true hab))
        have htotal : ∀ a b : VectorSearchResult,
            (decide (b.similarity ≤ a.similarity) || decide (a.similarity ≤ b.similarity)) = true := by
          intro a b
          rcases le_total b.similarity a.similarity with hle | hle
          · simp [hle]
          · simp [hle]
        have hs := List.sorted_mergeSort htrans htotal
          (scored.filter fun r => decide (threshold ≤ r.similarity))
        have hs2 : ((scored.filter fun r => decide (threshold ≤ r.similarity)).mergeSort
            (fun x y => decide (y.similarity ≤ x.similarity))).Pairwise
            (fun x y => y.similarity ≤ x.similarity) :=
          hs.imp fun h => of_decide_eq_true h
      
        exact List.Pairwise.sublist (List.take_sublist _ _) hs2
  · intro hempty
    have hfil : (docs.filter fun d => !(d.embedding.getD []).isEmpty) = [] := by
      apply List.filter_eq_nil_iff.mpr
      intro d hd
      simp [hempty d hd]
    simp [findSimilarDocuments, hfil, mapExcept]

/-- Witness for C4: at the concrete query `[1, 0]`, a candidate with embedding
`[1, 0]` yields the single result with similarity 1, for which the contract's
conclusions hold; and for a candidate list with no embeddings the result is
`.ok []`. -/
theorem search_results_contract_witness :
    ([({ document := docEmbA, similarity := 1 } : VectorSearchResult)].length ≤ 5 ∧
      (∀ r ∈ [({ document := docEmbA, similarity := 1 } : VectorSearchResult)],
        (7/10 : ℚ) ≤ r.similarity) ∧
      List.Pairwise (fun x y => y.similarity ≤ x.similarity)
        [({ document := docEmbA, similarity := 1 } : VectorSearchResult)]) ∧
    findSimilarDocuments Rat.sqrt [1, 0] [docNoEmb] (7/10) 5 = .ok [] := by
  have h1 : Rat.sqrt 1 = 1 := by decide
  have hok : findSimilarDocuments Rat.sqrt [1, 0] [docEmbA] (7/10) 5
      = .ok [{ document := docEmbA, similarity := 1 }] := by
    simp [findSimilarDocuments, mapExcept, scoreDoc, calculateSimilarity, docEmbA, h1,
      List.mergeSort_singleton]
    norm_num
  refine ⟨(search_results_contract Rat.sqrt [1, 0] [docEmbA] (7/10) 5).1 _ hok, ?_⟩
  exact (search_results_contract Rat.sqrt [1, 0] [docNoEmb] (7/10) 5).2 (by
    intro d hd
    simp only [List.mem_singleton] at hd
    subst hd
    rfl)

/-- Claim C5, counterexample. The claim says a dimension-mismatched candidate is
only fatal to its own comparison: it is skipped and results are still
computed from the remaining candidates.  On the code, with query `[1, 0]` and
candidates `[docMismatch, docEmbA]` (the second of which matches perfectly),
`findSimilarDocuments` aborts the whole call with the thrown
`"Vector dim mismatch"` error and returns no results at all. -/
theorem mismatch_skips_candidate_counterexample :
    findSimilarDocuments Rat.sqrt [1, 0] [docMismatch, docEmbA] (7/10) 5
      = .error "Vector dim mismatch" := by
  rfl

/-- Claim C5, amended. A dimension mismatch between the query vector and any
candidate that has a non-empty embedding aborts the whole
`findSimilarDocuments` call with the error `"Vector dim mismatch"`; the
offending candidate is not skipped and no results are returned. -/
theorem mismatch_aborts_search (sqrt : ℚ → ℚ) (queryEmb : List ℚ)
    (docs : List PromptDocument) (threshold : ℚ) (limit : Nat)
    (d : PromptDocument) (e : List ℚ) (hd : d ∈ docs) (he : d.embedding = some e)
    (hne : e ≠ []) (hlen : e.length ≠ queryEmb.length) :
    findSimilarDocuments sqrt queryEmb docs threshold limit
      = .error "Vector dim mismatch" := by
  have hall : ∀ (x : PromptDocument) (msg : String),
      scoreDoc sqrt queryEmb x = .error msg → msg = "Vector dim mismatch" := by
    intro x msg hx
    simp only [scoreDoc, calculateSimilarity] at hx
    by_cases hc : queryEmb.length ≠ (x.embedding.getD []).length
    · rw [if_pos hc] at hx
      exact (Except.error.inj hx).symm
    · rw [if_neg hc] at hx
      exact Except.noConfusion hx
  have herr : scoreDoc sqrt queryEmb d = .error "Vector dim mismatch" := by
    simp only [scoreDoc, calculateSimilarity, he, Option.getD_some]
    rw [if_pos (fun h => hlen h.symm)]
  have hmem : d ∈ docs.filter fun d => !(d.embedding.getD []).isEmpty := by
    refine List.mem_filter.mpr ⟨hd, ?_⟩
    simp [he, hne]
  simp only [findSimilarDocuments]
  rw [mapExcept_error_of_mem (scoreDoc sqrt queryEmb) _ hall _ d hmem herr]

/-- Witness for C5 (amended): the concrete mismatching candidate from the
counterexample discharges the hypotheses. -/
theorem mismatch_aborts_search_witness :
    findSimilarDocuments Rat.sqrt [1, 0] [docMismatch, docEmbA] (7/10) 5
      = .error "Vector dim mismatch" ∧
    docMismatch ∈ [docMismatch, docEmbA] ∧
    docMismatch.embedding = some [1, 2, 3] ∧
    ([1, 2, 3] : List ℚ) ≠ [] ∧
    ([1, 2, 3] : List ℚ).length ≠ ([1, 0] : List ℚ).length :=
  ⟨mismatch_aborts_search Rat.sqrt [1, 0] [docMismatch, docEmbA] (7/10) 5
      docMismatch [1, 2, 3] (by simp) (by rfl) (by simp) (by simp),
    by simp, by rfl, by simp, by simp⟩

/-- Claim C7, counterexample. The claim says `isValidEmbedding` returns false for
a vector containing a non-finite element.  A vector of 1536 `NaN`s has the
right length and every element is of JS type `number`, so the source's check
accepts it, while the spec's finiteness check rejects it. -/
theorem isValidEmbedding_counterexample :
    isValidEmbedding (List.replicate 1536 JsVal.nanNum) = true ∧
    isValidEmbeddingSpec (List.replicate 1536 JsVal.nanNum) = false := by
  constructor
  · rw [isValidEmbedding, Bool.and_eq_true]
    constructor
    · rw [List.length_replicate]; rfl
    · rw [List.all_eq_true]
      intro v hv
      rw [List.eq_of_mem_replicate hv]
      rfl
  · have hfin : (List.replicate 1536 JsVal.nanNum).all jsIsFinite = false :=
      List.all_eq_false.mpr
        ⟨JsVal.nanNum, List.mem_replicate.mpr ⟨by simp, rfl⟩, by simp [jsIsFinite]⟩
    rw [isValidEmbeddingSpec, hfin, Bool.and_false]

/-- Claim C7, amended. `isValidEmbedding(vector)` returns true exactly when the
vector has length 1536 and every element is of JS type `number`; finiteness is
not checked (NaN and the infinities pass), and it returns false for a vector
of the wrong length or one containing a non-numeric element. -/
theorem isValidEmbedding_characterization (vec : List JsVal) :
    isValidEmbedding vec = true ↔
      vec.length = 1536 ∧ ∀ v ∈ vec, typeofIsNumber v = true := by
  simp [isValidEmbedding, EMBEDDING_DIMENSIONS, List.all_eq_true]

theorem appendSuffix {a s : String} (h : ∃ r, s = a ++ r) (t : String) :
    ∃ r, s ++ t = a ++ r := by
  obtain ⟨r, rfl⟩ := h
  exact ⟨r ++ t, String.append_assoc a r t⟩

theorem appendIte {a s₁ s₂ : String} (c : Prop) [Decidable c]
    (h₁ : ∃ r, s₁ = a ++ r) (h₂ : ∃ r, s₂ = a ++ r) :
    ∃ r, (if c then s₁ else s₂) = a ++ r := by
  by_cases hc : c
  · rw [if_pos hc]; exact h₁
  · rw [if_neg hc]; exact h₂

theorem appendRefl (a : String) : ∃ r, a = a ++ r :=
  ⟨"", (String.append_empty a).symm⟩

/-- Structure of the synthesized content when the best match clears the 0.8
bar: everything the source appends after the most-relevant-answer block is
collected into a suffix `r`. -/
theorem csr_decomposition (query : String) (best : VectorSearchResult)
    (rest0 : List VectorSearchResult) (hsim : best.similarity ≥ 8/10) :
    ∃ r, createStructuredResponse query (best :: rest0) =
      introLine query ((best :: rest0).take 5).length ++
        "**Most Relevant Answer** (" ++ toFixed1 (best.similarity * 100) ++
        "% match):\n" ++ best.document.response ++ "\n\n" ++ r := by
  have ht : (best :: rest0).take 5 = best :: rest0.take 4 := rfl
  simp only [createStructuredResponse, ht]
  rw [if_pos hsim]
  refine appendSuffix (appendSuffix (appendSuffix (appendSuffix (appendSuffix
    (appendSuffix (appendSuffix ?_ _) _) _) _) _) _) _
  refine appendIte _ ?_ ?_
  · refine appendSuffix (appendSuffix ?_ _) _
    refine appendIte _ ?_ ?_
    · exact appendSuffix (appendSuffix (appendSuffix (appendRefl _) _) _) _
    · exact appendRefl _
  · refine appendIte _ ?_ ?_
    · exact appendSuffix (appendSuffix (appendSuffix (appendRefl _) _) _) _
    · exact appendRefl _

theorem toList_append_cons {s₀ : String} {c : Char} {cs : List Char}
    (h : s₀.toList = c :: cs) (t : String) :
    (s₀ ++ t).toList = c :: (cs ++ t.toList) := by
  show (s₀ ++ t).data = c :: (cs ++ t.data)
  rw [String.data_append]
  have h' : s₀.data = c :: cs := h
  rw [h', List.cons_append]

/-- Claim C9, counterexample. The claim says the synthesizer's output opens with
the best match's stored response text verbatim.  At the spec's own example
similarities (0.95, 0.82, 0.6) the output opens with the contextual
introduction `Based on your question about ...`; the best match's response
(`Use memoization ...`) is not a prefix of the content. -/
theorem synthesize_opening_counterexample :
    ¬ (matchDoc1.response.toList <+:
        (createStructuredResponse "How do I make my app faster?" rankedMatches).toList) := by
  intro hpre
  have hrm : rankedMatches =
      ({ document := matchDoc1, similarity := 95/100 } : VectorSearchResult) ::
        [{ document := matchDoc2, similarity := 82/100 },
         { document := matchDoc3, similarity := 6/10 }] := rfl
  obtain ⟨r, hr⟩ := csr_decomposition "How do I make my app faster?"
    { document := matchDoc1, similarity := 95/100 }
    [{ document := matchDoc2, similarity := 82/100 },
     { document := matchDoc3, similarity := 6/10 }]
    (by norm_num)
  rw [hrm, hr] at hpre
  obtain ⟨t, ht⟩ := hpre
  have hintro : (introLine "How do I make my app faster?"
      ((({ document := matchDoc1, similarity := 95/100 } : VectorSearchResult) ::
        [{ document := matchDoc2, similarity := 82/100 },
         { document := matchDoc3, similarity := 6/10 }]).take 5).length).toList
      = 'B' :: "ased on your question about \"How do I make my app faster?\", I found 3 relevant entries in our knowledge base.\n\n".toList := by
    rfl
  have hbig := toList_append_cons (toList_append_cons (toList_append_cons
    (toList_append_cons (toList_append_cons (toList_append_cons hintro
      "**Most Relevant Answer** (") (toFixed1 (95/100 * 100))) "% match):\n")
      matchDoc1.response) "\n\n") r
  rw [hbig] at ht
  have hresp : matchDoc1.response.toList =
      'U' :: "se memoization to avoid recomputing results.".toList := rfl
  rw [hresp, List.cons_append] at ht
  exact absurd (List.head_eq_of_cons_eq ht) (by decide)

/-- Claim C9, amended. For every non-empty ranked match list whose best match
has similarity ≥ 0.8, the synthesizer's output opens with the one-line
contextual introduction and then immediately presents the best match's stored
response text verbatim under the `**Most Relevant Answer**` header, tagged
with its similarity percentage; everything else follows after. -/
theorem synthesize_most_relevant_opening (query : String)
    (docs : List VectorSearchResult) (best : VectorSearchResult)
    (rest0 : List VectorSearchResult) (hdocs : docs = best :: rest0)
    (hsim : best.similarity ≥ 8/10) :
    ∃ r, createStructuredResponse query docs =
      introLine query ((docs.take 5).length) ++
        "**Most Relevant Answer** (" ++ toFixed1 (best.similarity * 100) ++
        "% match):\n" ++ best.document.response ++ "\n\n" ++ r := by
  subst hdocs
  exact csr_decomposition query best rest0 hsim

/-- Witness for C9 (amended), at the spec's example similarities
(0.95, 0.82, 0.6). -/
theorem synthesize_most_relevant_opening_witness :
    rankedMatches =
      ({ document := matchDoc1, similarity := 95/100 } : VectorSearchResult) ::
        [{ document := matchDoc2, similarity := 82/100 },
         { document := matchDoc3, similarity := 6/10 }] ∧
    (95/100 : ℚ) ≥ 8/10 ∧
    ∃ r, createStructuredResponse "How do I make my app faster?" rankedMatches =
      introLine "How do I make my app faster?" ((rankedMatches.take 5).length) ++
        "**Most Relevant Answer** (" ++ toFixed1 ((95/100 : ℚ) * 100) ++
        "% match):\n" ++ matchDoc1.response ++ "\n\n" ++ r :=
  ⟨rfl, by norm_num,
    synthesize_most_relevant_opening "How do I make my app faster?" rankedMatches
      { document := matchDoc1, similarity := 95/100 }
      [{ document := matchDoc2, similarity := 82/100 },
       { document := matchDoc3, similarity := 6/10 }] rfl (by norm_num)⟩

theorem mapGet_mapSet_self {β : Type} (k : String) (v : β) (l : List (String × β)) :
    mapGet k (mapSet k v l) = some v := by
  induction l with
  | nil => simp [mapSet, mapGet]
  | cons p rest ih =>
    by_cases h : p.1 = k
    · simp [mapSet, mapGet, h]
    · simp [mapSet, mapGet, h, ih]

theorem runAttempt_healthy (cfg : AIServiceConfig) (env : ProviderEnv)
    (st : AIServiceState) (tr : GenTrace)
    (hprov : cfg.primaryProvider ∈ st.providers)
    (hcache : mapGet cfg.primaryProvider st.healthStatus = some true)
    (hlive : ∀ k, env.healthOutcome k = .ok true) :
    ∃ (st' : AIServiceState) (lh : Nat),
      st'.providers = st.providers ∧
      mapGet cfg.primaryProvider st'.healthStatus = some true ∧
      runAttempt cfg env st tr =
        ((match env.genOutcome tr.genCalls with
          | .success r => .ok r
          | .throwProviderError e => .error (.providerError e)
          | .throwJsError m => .error (.jsError m)),
         st',
         { attempts := tr.attempts + 1, genCalls := tr.genCalls + 1,
           liveHealthCalls := lh, sleeps := tr.sleeps }) := by
  simp only [runAttempt, checkProviderHealth]
  rw [if_pos hprov]
  by_cases hfresh : env.healthTime tr.attempts -
      (mapGet cfg.primaryProvider st.lastHealthCheck).getD 0 < cfg.healthCheckInterval
  · rw [if_pos hfresh]
    refine ⟨st, tr.liveHealthCalls, rfl, hcache, ?_⟩
    rw [hcache]
    simp only [Option.getD_some, if_true, Bool.false_eq_true, if_false]
  · rw [if_neg hfresh, hlive tr.liveHealthCalls]
    refine ⟨{ st with
        healthStatus := mapSet cfg.primaryProvider true st.healthStatus,
        lastHealthCheck :=
          mapSet cfg.primaryProvider (env.healthTime tr.attempts) st.lastHealthCheck },
      tr.liveHealthCalls + 1, rfl, mapGet_mapSet_self _ _ _, ?_⟩
    simp only [if_true]

theorem genFails_thrown {o : GenOutcome} (h : genFailsRetryably o) :
    ∃ th : Thrown,
      (match o with
        | .success r => Except.ok r
        | .throwProviderError e => Except.error (Thrown.providerError e)
        | .throwJsError m => Except.error (Thrown.jsError m)) = Except.error th ∧
      (classifyCaught th).retryable = true := by
  rcases h with ⟨e, rfl, hre⟩ | ⟨m, rfl⟩
  · exact ⟨.providerError e, rfl, hre⟩
  · exact ⟨.jsError m, rfl, rfl⟩

theorem loop_genfail (cfg : AIServiceConfig) (env : ProviderEnv)
    (hlive : ∀ k, env.healthOutcome k = .ok true)
    (hgen : ∀ k, genFailsRetryably (env.genOutcome k)) :
    ∀ (fuel : Nat) (st : AIServiceState) (rc : Nat) (le : Option AIProviderError)
      (tr : GenTrace),
      cfg.primaryProvider ∈ st.providers →
      mapGet cfg.primaryProvider st.healthStatus = some true →
      fuel + rc = cfg.retryAttempts + 1 →
      rc ≤ cfg.retryAttempts →
      ∃ (e : AIProviderError) (st' : AIServiceState) (tr' : GenTrace),
        generateResponseLoop cfg env fuel st rc le tr =
          .exhausted (some e) cfg.retryAttempts st' tr' ∧
        e.retryable = true ∧
        tr'.genCalls = tr.genCalls + fuel ∧
        tr'.attempts = tr.attempts + fuel := by
  intro fuel
  induction fuel with
  | zero => intro st rc le tr _ _ hsum hrc; omega
  | succ fuel ih =>
    intro st rc le tr hprov hcache hsum hrc
    obtain ⟨st1, lh, hpr, hca, hrun⟩ := runAttempt_healthy cfg env st tr hprov hcache hlive
    obtain ⟨th, hth, hre⟩ := genFails_thrown (hgen tr.genCalls)
    rw [hth] at hrun
    by_cases hend : cfg.retryAttempts ≤ rc
    · have hrc' : rc = cfg.retryAttempts := le_antisymm hrc hend
      have hfuel0 : fuel = 0 := by omega
      subst hfuel0
      refine ⟨classifyCaught th, st1,
        { attempts := tr.attempts + 1, genCalls := tr.genCalls + 1,
          liveHealthCalls := lh, sleeps := tr.sleeps }, ?_, hre, by simp, by simp⟩
      simp only [generateResponseLoop, hrun]
      rw [if_pos]
      · rw [hrc']
      · simp [hre, hend]
    · have hlt : rc < cfg.retryAttempts := lt_of_not_ge hend
      have hrc1 : rc + 1 ≤ cfg.retryAttempts := hlt
      obtain ⟨e', st', tr', heq, hre', hg, ha⟩ := ih st1 (rc + 1) (some (classifyCaught th))
        { attempts := tr.attempts + 1, genCalls := tr.genCalls + 1,
          liveHealthCalls := lh,
          sleeps := tr.sleeps ++ [cfg.retryDelay * 2 ^ (rc + 1 - 1)] }
        (hpr ▸ hprov) hca (by omega) hrc1
      refine ⟨e', st', tr', ?_, hre', by simp at hg ⊢; omega, by simp at ha ⊢; omega⟩
      simp only [generateResponseLoop, hrun]
      rw [if_neg, if_pos hrc1]
      · exact heq
      · simp [hre]
        omega

/-- Claim C1. With fallback enabled, a registered healthy primary provider, and
every generation attempt failing retryably, `generateResponse` makes exactly
`retryAttempts + 1` provider generation calls and then returns the fallback
response, whose `metadata.retryCount` equals `retryAttempts`. -/
theorem retry_exhaustion_then_fallback (cfg : AIServiceConfig) (env : ProviderEnv)
    (st : AIServiceState) (query : String) (docs : List VectorSearchResult)
    (hfb : cfg.fallbackEnabled = true)
    (hprov : cfg.primaryProvider ∈ st.providers)
    (hcache : mapGet cfg.primaryProvider st.healthStatus = some true)
    (hlive : ∀ k, env.healthOutcome k = .ok true)
    (hgen : ∀ k, genFailsRetryably (env.genOutcome k)) :
    ∃ (resp : AIServiceResponse) (st' : AIServiceState) (tr : GenTrace),
      generateResponse cfg env st query docs = (.ok resp, st', tr) ∧
      tr.genCalls = cfg.retryAttempts + 1 ∧
      resp.source = .fallback ∧
      resp.metadata.retryCount = some cfg.retryAttempts := by
  obtain ⟨e, st', tr', hloop, hre, hg, ha⟩ :=
    loop_genfail cfg env hlive hgen (cfg.retryAttempts + 1) st 0 none {}
      hprov hcache (by omega) (by omega)
  simp only [generateResponse, hloop, hfb, if_true]
  refine ⟨_, st', tr', rfl, ?_, rfl, rfl⟩
  simpa using hg

/-- Witness for C1, at the default configuration shape (2 retries), a healthy
cached provider and a provider that always throws a retryable network
error. -/
theorem retry_exhaustion_then_fallback_witness :
    cfgTest.fallbackEnabled = true ∧
    cfgTest.primaryProvider ∈ stHealthy.providers ∧
    mapGet cfgTest.primaryProvider stHealthy.healthStatus = some true ∧
    (∀ k, envAlwaysFail.healthOutcome k = .ok true) ∧
    (∀ k, genFailsRetryably (envAlwaysFail.genOutcome k)) ∧
    ∃ (resp : AIServiceResponse) (st' : AIServiceState) (tr : GenTrace),
      generateResponse cfgTest envAlwaysFail stHealthy "q" [] = (.ok resp, st', tr) ∧
      tr.genCalls = cfgTest.retryAttempts + 1 ∧
      resp.source = .fallback ∧
      resp.metadata.retryCount = some cfgTest.retryAttempts :=
  ⟨rfl, by simp [cfgTest, stHealthy], rfl, fun _ => rfl,
    fun _ => Or.inl ⟨_, rfl, rfl⟩,
    retry_exhaustion_then_fallback cfgTest envAlwaysFail stHealthy "q" []
      rfl (by simp [cfgTest, stHealthy]) rfl (fun _ => rfl)
      (fun _ => Or.inl ⟨_, rfl, rfl⟩)⟩

/-- Claim C6. If the first attempt fails with a thrown provider error whose
`retryable` flag is false and fallback is enabled, `generateResponse` makes
exactly one provider generation call (one loop iteration, no backoff sleeps)
and immediately returns the fallback response. -/
theorem nonretryable_single_attempt (cfg : AIServiceConfig) (env : ProviderEnv)
    (st : AIServiceState) (query : String) (docs : List VectorSearchResult)
    (e : AIProviderError)
    (hfb : cfg.fallbackEnabled = true)
    (hprov : cfg.primaryProvider ∈ st.providers)
    (hcache : mapGet cfg.primaryProvider st.healthStatus = some true)
    (hlive : ∀ k, env.healthOutcome k = .ok true)
    (hgen0 : env.genOutcome 0 = .throwProviderError e)
    (hre : e.retryable = false) :
    ∃ (resp : AIServiceResponse) (st' : AIServiceState) (tr : GenTrace),
      generateResponse cfg env st query docs = (.ok resp, st', tr) ∧
      tr.genCalls = 1 ∧ tr.attempts = 1 ∧ tr.sleeps = [] ∧
      resp.source = .fallback ∧ resp.metadata.retryCount = some 0 := by
  obtain ⟨st1, lh, hpr, hca, hrun⟩ := runAttempt_healthy cfg env st {} hprov hcache hlive
  rw [show ({} : GenTrace).genCalls = 0 from rfl, hgen0] at hrun
  simp only [generateResponse, generateResponseLoop, hrun, classifyCaught, hre,
    Bool.not_false, Bool.true_or, if_true, hfb]
  exact ⟨_, st1, _, rfl, rfl, rfl, rfl, rfl, rfl⟩

/-- Witness for C6: a provider that throws a non-retryable auth error on the
first call. -/
theorem nonretryable_single_attempt_witness :
    cfgTest.fallbackEnabled = true ∧
    cfgTest.primaryProvider ∈ stHealthy.providers ∧
    mapGet cfgTest.primaryProvider stHealthy.healthStatus = some true ∧
    (∀ k, envAuthFail.healthOutcome k = .ok true) ∧
    envAuthFail.genOutcome 0 = .throwProviderError
      { type := "auth", message := "Authentication failed", retryable := false } ∧
    ∃ (resp : AIServiceResponse) (st' : AIServiceState) (tr : GenTrace),
      generateResponse cfgTest envAuthFail stHealthy "q" [] = (.ok resp, st', tr) ∧
      tr.genCalls = 1 ∧ tr.attempts = 1 ∧ tr.sleeps = [] ∧
      resp.source = .fallback ∧ resp.metadata.retryCount = some 0 :=
  ⟨rfl, by simp [cfgTest, stHealthy], rfl, fun _ => rfl, rfl,
    nonretryable_single_attempt cfgTest envAuthFail stHealthy "q" []
      { type := "auth", message := "Authentication failed", retryable := false }
      rfl (by simp [cfgTest, stHealthy]) rfl (fun _ => rfl) rfl rfl⟩

theorem loop_noprovider (cfg : AIServiceConfig) (env : ProviderEnv) :
    ∀ (fuel : Nat) (st : AIServiceState) (rc : Nat) (le : Option AIProviderError)
      (tr : GenTrace),
      cfg.primaryProvider ∉ st.providers →
      fuel + rc = cfg.retryAttempts + 1 →
      rc ≤ cfg.retryAttempts →
      generateResponseLoop cfg env fuel st rc le tr =
        .exhausted
          (some { type := "unknown", message := "Primary AI provider not available",
                  retryable := true })
          cfg.retryAttempts st
          { attempts := tr.attempts + fuel, genCalls := tr.genCalls,
            liveHealthCalls := tr.liveHealthCalls,
            sleeps := tr.sleeps ++ (List.range' rc (cfg.retryAttempts - rc)).map
              (fun k => cfg.retryDelay * 2 ^ k) } := by
  intro fuel
  induction fuel with
  | zero => intro st rc le tr _ hsum hrc; omega
  | succ fuel ih =>
    intro st rc le tr hprov hsum hrc
    have hrun : runAttempt cfg env st tr =
        (.error (.jsError "Primary AI provider not available"), st,
          { attempts := tr.attempts + 1, genCalls := tr.genCalls,
            liveHealthCalls := tr.liveHealthCalls, sleeps := tr.sleeps }) := by
      simp only [runAttempt]
      rw [if_neg hprov]
    simp only [generateResponseLoop, hrun, classifyCaught]
    by_cases hend : cfg.retryAttempts ≤ rc
    · have hrc' : rc = cfg.retryAttempts := le_antisymm hrc hend
      have hfuel0 : fuel = 0 := by omega
      subst hfuel0
      subst hrc'
      rw [if_pos (by simp)]
      simp
    · rw [if_neg (by simp; omega),
        if_pos (show rc + 1 ≤ cfg.retryAttempts by omega)]
      have hrec := ih st (rc + 1)
        (some { type := "unknown", message := "Primary AI provider not available",
                retryable := true })
        { attempts := tr.attempts + 1, genCalls := tr.genCalls,
          liveHealthCalls := tr.liveHealthCalls,
          sleeps := tr.sleeps ++ [cfg.retryDelay * 2 ^ (rc + 1 - 1)] }
        hprov (by omega) (by omega)
      rw [hrec]
      have hn : cfg.retryAttempts - rc = (cfg.retryAttempts - (rc + 1)) + 1 := by omega
      rw [hn, List.range'_succ]
      simp [List.append_assoc]
      omega

/-- Claim C10. When no provider is registered, the `throw new Error("Primary AI
provider not available")` is reclassified by the catch block as a retryable
`unknown` provider error, so `generateResponse` still runs the full
`retryAttempts + 1` loop iterations — making zero generation calls — with the
full exponential-backoff sleep sequence, and then returns the fallback
response carrying that error message. -/
theorem no_provider_full_retries (cfg : AIServiceConfig) (env : ProviderEnv)
    (st : AIServiceState) (query : String) (docs : List VectorSearchResult)
    (hfb : cfg.fallbackEnabled = true)
    (hnoprov : cfg.primaryProvider ∉ st.providers) :
    ∃ (resp : AIServiceResponse) (tr : GenTrace),
      generateResponse cfg env st query docs = (.ok resp, st, tr) ∧
      tr.attempts = cfg.retryAttempts + 1 ∧
      tr.genCalls = 0 ∧
      tr.sleeps = (List.range' 0 cfg.retryAttempts).map
        (fun k => cfg.retryDelay * 2 ^ k) ∧
      resp.source = .fallback ∧
      resp.metadata.retryCount = some cfg.retryAttempts ∧
      resp.metadata.fallbackReason = some "Primary AI provider not available" := by
  have hloop := loop_noprovider cfg env (cfg.retryAttempts + 1) st 0 none {}
    hnoprov (by omega) (by omega)
  simp only [generateResponse, hloop, hfb, if_true]
  refine ⟨_, _, rfl, by simp, rfl, by simp, rfl, rfl, ?_⟩
  rw [if_neg (by decide)]
  simp

/-- Witness for C10: the default configuration shape with an empty provider
registry. -/
theorem no_provider_full_retries_witness :
    cfgTest.fallbackEnabled = true ∧
    cfgTest.primaryProvider ∉ stNoProviders.providers ∧
    ∃ (resp : AIServiceResponse) (tr : GenTrace),
      generateResponse cfgTest envWithinInterval stNoProviders "q" [] =
        (.ok resp, stNoProviders, tr) ∧
      tr.attempts = cfgTest.retryAttempts + 1 ∧
      tr.genCalls = 0 ∧
      tr.sleeps = (List.range' 0 cfgTest.retryAttempts).map
        (fun k => cfgTest.retryDelay * 2 ^ k) ∧
      resp.source = .fallback ∧
      resp.metadata.retryCount = some cfgTest.retryAttempts ∧
      resp.metadata.fallbackReason = some "Primary AI provider not available" :=
  ⟨rfl, by simp [cfgTest, stNoProviders],
    no_provider_full_retries cfgTest envWithinInterval stNoProviders "q" []
      rfl (by simp [cfgTest, stNoProviders])⟩

theorem loop_unhealthy_cached (cfg : AIServiceConfig) (env : ProviderEnv)
    (st : AIServiceState)
    (hprov : cfg.primaryProvider ∈ st.providers)
    (hunhealthy : (mapGet cfg.primaryProvider st.healthStatus).getD false = false)
    (hfresh : ∀ k, env.healthTime k -
        (mapGet cfg.primaryProvider st.lastHealthCheck).getD 0 <
          cfg.healthCheckInterval) :
    ∀ (fuel : Nat) (rc : Nat) (le : Option AIProviderError) (tr : GenTrace),
      fuel + rc = cfg.retryAttempts + 1 →
      rc ≤ cfg.retryAttempts →
      generateResponseLoop cfg env fuel st rc le tr =
        .exhausted
          (some { type := "unknown", message := "Primary provider failed health check",
                  retryable := true })
          cfg.retryAttempts st
          { attempts := tr.attempts + fuel, genCalls := tr.genCalls,
            liveHealthCalls := tr.liveHealthCalls,
            sleeps := tr.sleeps ++ (List.range' rc (cfg.retryAttempts - rc)).map
              (fun k => cfg.retryDelay * 2 ^ k) } := by
  have hrun : ∀ tr : GenTrace, runAttempt cfg env st tr =
      (.error (.jsError "Primary provider failed health check"), st,
        { attempts := tr.attempts + 1, genCalls := tr.genCalls,
          liveHealthCalls := tr.liveHealthCalls, sleeps := tr.sleeps }) := by
    intro tr
    simp only [runAttempt, checkProviderHealth]
    rw [if_pos hprov, if_pos (hfresh tr.attempts), hunhealthy]
    rfl
  intro fuel
  induction fuel with
  | zero => intro rc le tr hsum hrc; omega
  | succ fuel ih =>
    intro rc le tr hsum hrc
    simp only [generateResponseLoop, hrun, classifyCaught]
    by_cases hend : cfg.retryAttempts ≤ rc
    · have hrc' : rc = cfg.retryAttempts := le_antisymm hrc hend
      have hfuel0 : fuel = 0 := by omega
      subst hfuel0
      subst hrc'
      rw [if_pos (by simp)]
      simp
    · rw [if_neg (by simp; omega),
        if_pos (show rc + 1 ≤ cfg.retryAttempts by omega)]
      have hrec := ih (rc + 1)
        (some { type := "unknown", message := "Primary provider failed health check",
                retryable := true })
        { attempts := tr.attempts + 1, genCalls := tr.genCalls,
          liveHealthCalls := tr.liveHealthCalls,
          sleeps := tr.sleeps ++ [cfg.retryDelay * 2 ^ (rc + 1 - 1)] }
        (by omega) (by omega)
      rw [hrec]
      have hn : cfg.retryAttempts - rc = (cfg.retryAttempts - (rc + 1)) + 1 := by omega
      rw [hn, List.range'_succ]
      simp [List.append_assoc]
      omega

theorem generateResponse_unhealthy_cached (cfg : AIServiceConfig)
    (env : ProviderEnv) (st : AIServiceState) (query : String)
    (docs : List VectorSearchResult)
    (hfb : cfg.fallbackEnabled = true)
    (hprov : cfg.primaryProvider ∈ st.providers)
    (hunhealthy : (mapGet cfg.primaryProvider st.healthStatus).getD false = false)
    (hfresh : ∀ k, env.healthTime k -
        (mapGet cfg.primaryProvider st.lastHealthCheck).getD 0 <
          cfg.healthCheckInterval) :
    ∃ (resp : AIServiceResponse) (tr : GenTrace),
      generateResponse cfg env st query docs = (.ok resp, st, tr) ∧
      resp.source = .fallback ∧ tr.genCalls = 0 ∧ tr.liveHealthCalls = 0 := by
  have hloop := loop_unhealthy_cached cfg env st hprov hunhealthy hfresh
    (cfg.retryAttempts + 1) 0 none {} (by omega) (by omega)
  simp only [generateResponse, hloop, hfb, if_true]
  exact ⟨_, _, rfl, rfl, rfl, rfl⟩

/-- Claim C2. When the primary provider's cached health status is unhealthy and
every health-check `Date.now()` reading of both calls stays within
`healthCheckInterval` of the recorded last check, two consecutive smart-search
calls (the second starting from the state the first one returned) both make
zero provider generation calls and zero live health-endpoint probes — the
cached status is served from the cache — and both return a `source =
fallback` response. -/
theorem cached_unhealthy_consecutive_answers
    (cfg : AIServiceConfig) (env₁ env₂ : ProviderEnv) (st : AIServiceState)
    (sqrt : ℚ → ℚ) (emb₁ emb₂ : Except String (List ℚ))
    (docs₁ docs₂ : List PromptDocument) (threshold₁ threshold₂ : ℚ)
    (limit₁ limit₂ : Nat) (q₁ q₂ : String)
    (sims₁ sims₂ : List VectorSearchResult)
    (hfb : cfg.fallbackEnabled = true)
    (hprov : cfg.primaryProvider ∈ st.providers)
    (hunhealthy : (mapGet cfg.primaryProvider st.healthStatus).getD false = false)
    (hfresh₁ : ∀ k, env₁.healthTime k -
        (mapGet cfg.primaryProvider st.lastHealthCheck).getD 0 <
          cfg.healthCheckInterval)
    (hfresh₂ : ∀ k, env₂.healthTime k -
        (mapGet cfg.primaryProvider st.lastHealthCheck).getD 0 <
          cfg.healthCheckInterval)
    (hv₁ : vectorSearch sqrt emb₁ docs₁ threshold₁ limit₁ = .ok sims₁)
    (hv₂ : vectorSearch sqrt emb₂ docs₂ threshold₂ limit₂ = .ok sims₂) :
    ∃ (resp₁ resp₂ : AIServiceResponse) (tr₁ tr₂ : GenTrace),
      smartSearch sqrt emb₁ docs₁ threshold₁ limit₁ (some (cfg, env₁, st)) q₁ =
        (.ok resp₁, some (st, tr₁), true) ∧
      smartSearch sqrt emb₂ docs₂ threshold₂ limit₂ (some (cfg, env₂, st)) q₂ =
        (.ok resp₂, some (st, tr₂), true) ∧
      resp₁.source = .fallback ∧ resp₂.source = .fallback ∧
      tr₁.genCalls = 0 ∧ tr₂.genCalls = 0 ∧
      tr₁.liveHealthCalls = 0 ∧ tr₂.liveHealthCalls = 0 := by
  obtain ⟨resp₁, tr₁, h₁, hs₁, hg₁, hl₁⟩ :=
    generateResponse_unhealthy_cached cfg env₁ st q₁ sims₁ hfb hprov hunhealthy hfresh₁
  obtain ⟨resp₂, tr₂, h₂, hs₂, hg₂, hl₂⟩ :=
    generateResponse_unhealthy_cached cfg env₂ st q₂ sims₂ hfb hprov hunhealthy hfresh₂
  refine ⟨resp₁, resp₂, tr₁, tr₂, ?_, ?_, hs₁, hs₂, hg₁, hg₂, hl₁, hl₂⟩
  · simp only [smartSearch, hv₁, generateSmartResponse, h₁]
  · simp only [smartSearch, hv₂, generateSmartResponse, h₂]

/-- Witness for C2: cached-unhealthy state last checked at time 0, both calls
observed at time 10 within the 30s interval, over an empty document corpus. -/
theorem cached_unhealthy_consecutive_answers_witness :
    cfgTest.fallbackEnabled = true ∧
    cfgTest.primaryProvider ∈ stUnhealthy.providers ∧
    (mapGet cfgTest.primaryProvider stUnhealthy.healthStatus).getD false = false ∧
    (∀ k, envWithinInterval.healthTime k -
        (mapGet cfgTest.primaryProvider stUnhealthy.lastHealthCheck).getD 0 <
          cfgTest.healthCheckInterval) ∧
    ∃ (resp₁ resp₂ : AIServiceResponse) (tr₁ tr₂ : GenTrace),
      smartSearch Rat.sqrt (.ok [1]) [] (7/10) 5
          (some (cfgTest, envWithinInterval, stUnhealthy)) "q one" =
        (.ok resp₁, some (stUnhealthy, tr₁), true) ∧
      smartSearch Rat.sqrt (.ok [1]) [] (7/10) 5
          (some (cfgTest, envWithinInterval, stUnhealthy)) "q two" =
        (.ok resp₂, some (stUnhealthy, tr₂), true) ∧
      resp₁.source = .fallback ∧ resp₂.source = .fallback ∧
      tr₁.genCalls = 0 ∧ tr₂.genCalls = 0 ∧
      tr₁.liveHealthCalls = 0 ∧ tr₂.liveHealthCalls = 0 := by
  have hv : vectorSearch Rat.sqrt (.ok [1]) [] (7/10) 5 = .ok [] := by
    simp [vectorSearch, findSimilarDocuments, mapExcept, List.mergeSort_nil]
  have hfr : ∀ k, envWithinInterval.healthTime k -
      (mapGet cfgTest.primaryProvider stUnhealthy.lastHealthCheck).getD 0 <
        cfgTest.healthCheckInterval := by
    intro k
    show (10 : Int) - (mapGet "ollama" [("ollama", (0 : Int))]).getD 0 < 30000
    decide
  exact ⟨rfl, by simp [cfgTest, stUnhealthy], rfl, hfr,
    cached_unhealthy_consecutive_answers cfgTest envWithinInterval envWithinInterval
      stUnhealthy Rat.sqrt (.ok [1]) (.ok [1]) [] [] (7/10) (7/10) 5 5
      "q one" "q two" [] [] rfl (by simp [cfgTest, stUnhealthy]) rfl
      hfr hfr hv hv⟩

theorem runAttempt_attempts (cfg : AIServiceConfig) (env : ProviderEnv)
    (st : AIServiceState) (tr : GenTrace) :
    ((runAttempt cfg env st tr).2.2).attempts = tr.attempts + 1 := by
  simp only [runAttempt, checkProviderHealth]
  repeat' split
  all_goals rfl

theorem loop_invariant (cfg : AIServiceConfig) (env : ProviderEnv) :
    ∀ (fuel : Nat) (st : AIServiceState) (rc : Nat) (le : Option AIProviderError)
      (tr : GenTrace),
      fuel + rc = cfg.retryAttempts + 1 →
      rc ≤ cfg.retryAttempts →
      (∀ resp st' tr',
          generateResponseLoop cfg env fuel st rc le tr = .success resp st' tr' →
          resp.source = .ai ∧ resp.metadata.fallbackReason = none) ∧
      (∀ le' rc' st' tr',
          generateResponseLoop cfg env fuel st rc le tr = .exhausted le' rc' st' tr' →
          tr'.attempts + rc = tr.attempts + rc' + 1 ∧ rc ≤ rc') := by
  intro fuel
  induction fuel with
  | zero => intro st rc le tr hsum hrc; exact absurd hsum (by omega)
  | succ fuel ih =>
    intro st rc le tr hsum hrc
    obtain ⟨out, st2, tr2, hrun⟩ :
        ∃ out st2 tr2, runAttempt cfg env st tr = (out, st2, tr2) := ⟨_, _, _, rfl⟩
    have hat : tr2.attempts = tr.attempts + 1 := by
      have h := runAttempt_attempts cfg env st tr
      rw [hrun] at h
      exact h
    cases out with
    | ok r =>
      simp only [generateResponseLoop, hrun]
      constructor
      · intro resp st' tr' heq
        injection heq with h1 _ _
        rw [← h1]
        exact ⟨rfl, rfl⟩
      · intro le' rc' st' tr' heq
        exact LoopExit.noConfusion heq
    | error th =>
      simp only [generateResponseLoop, hrun]
      by_cases hbreak :
          (!(classifyCaught th).retryable || decide (rc ≥ cfg.retryAttempts)) = true
      · rw [if_pos hbreak]
        constructor
        · intro resp st' tr' heq
          exact LoopExit.noConfusion heq
        · intro le' rc' st' tr' heq
          injection heq with _ h2 _ h4
          subst h2
          rw [← h4]
          omega
      · rw [if_neg hbreak]
        have hlt : rc < cfg.retryAttempts := by
          have hb2 := hbreak
          simp only [Bool.or_eq_true, decide_eq_true_eq, not_or] at hb2
          omega
        rw [if_pos (show rc + 1 ≤ cfg.retryAttempts from hlt)]
        obtain ⟨hsucc, hexh⟩ := ih st2 (rc + 1) (some (classifyCaught th))
          { tr2 with sleeps := tr2.sleeps ++ [cfg.retryDelay * 2 ^ (rc + 1 - 1)] }
          (by omega) (by omega)
        refine ⟨hsucc, ?_⟩
        intro le' rc' st' tr' heq
        obtain ⟨ha, hr⟩ := hexh le' rc' st' tr' heq
        have hupd : ({ tr2 with
            sleeps := tr2.sleeps ++ [cfg.retryDelay * 2 ^ (rc + 1 - 1)] } :
              GenTrace).attempts = tr2.attempts := rfl
        rw [hupd] at ha
        omega

/-- Claim C8. Every `AIServiceResponse` that `generateResponse` returns
satisfies the invariant: `source = ai` implies the metadata carries no
`fallbackReason`, and `source = fallback` implies `metadata.retryCount`
equals the number of retry attempts made before falling back (the loop
iterations beyond the first). -/
theorem response_invariant (cfg : AIServiceConfig) (env : ProviderEnv)
    (st : AIServiceState) (query : String) (docs : List VectorSearchResult)
    (resp : AIServiceResponse) (st' : AIServiceState) (tr : GenTrace)
    (h : generateResponse cfg env st query docs = (.ok resp, st', tr)) :
    (resp.source = .ai → resp.metadata.fallbackReason = none) ∧
    (resp.source = .fallback → resp.metadata.retryCount = some (tr.attempts - 1)) := by
  obtain ⟨hsucc, hexh⟩ := loop_invariant cfg env (cfg.retryAttempts + 1) st 0 none {}
    (by omega) (by omega)
  simp only [generateResponse] at h
  cases hloop : generateResponseLoop cfg env (cfg.retryAttempts + 1) st 0 none {} with
  | success r s2 t2 =>
    simp only [hloop] at h
    obtain ⟨hai, hfr⟩ := hsucc r s2 t2 hloop
    obtain ⟨h1, h2, h3⟩ : r = resp ∧ s2 = st' ∧ t2 = tr := by simpa using h
    subst h1
    constructor
    · intro _
      exact hfr
    · intro hsrc
      rw [hai] at hsrc
      exact Source.noConfusion hsrc
  | exhausted le' rc' s2 t2 =>
    simp only [hloop] at h
    obtain ⟨ha, _⟩ := hexh le' rc' s2 t2 hloop
    by_cases hfb : cfg.fallbackEnabled = true
    · rw [if_pos hfb] at h
      obtain ⟨h1, h2, h3⟩ :
          ({ content := (generateFallbackResponse query docs env.startTime
                env.fallbackTime).content
             source := .fallback
             metadata :=
              { provider := "vector-fallback"
                responseTime := env.fallbackTime - env.startTime
                confidence := (generateFallbackResponse query docs env.startTime
                  env.fallbackTime).confidence
                retryCount := some rc'
                fallbackReason := some (if ((le'.map fun e => e.message).getD "") = ""
                  then "AI provider unavailable"
                  else (le'.map fun e => e.message).getD "") } } :
            AIServiceResponse) = resp ∧ s2 = st' ∧ t2 = tr := by
        simpa using h
      subst h1
      subst h3
      refine ⟨fun hsrc => Source.noConfusion hsrc, fun _ => ?_⟩
      simp only []
      congr 1
      simp only [GenTrace.attempts] at ha
      omega
    · rw [if_neg hfb] at h
      simp at h

/-- Witness for C8: a concrete run (cached-unhealthy provider, so the run
falls back) on which the invariant is checked. -/
theorem response_invariant_witness :
    ∃ (resp : AIServiceResponse) (st' : AIServiceState) (tr : GenTrace),
      generateResponse cfgTest envWithinInterval stUnhealthy "q" [] =
        (.ok resp, st', tr) ∧
      (resp.source = .ai → resp.metadata.fallbackReason = none) ∧
      (resp.source = .fallback → resp.metadata.retryCount = some (tr.attempts - 1)) := by
  have hfr : ∀ k, envWithinInterval.healthTime k -
      (mapGet cfgTest.primaryProvider stUnhealthy.lastHealthCheck).getD 0 <
        cfgTest.healthCheckInterval := by
    intro k
    show (10 : Int) - (mapGet "ollama" [("ollama", (0 : Int))]).getD 0 < 30000
    decide
  obtain ⟨resp, tr, h, _⟩ := generateResponse_unhealthy_cached cfgTest
    envWithinInterval stUnhealthy "q" [] rfl (by simp [cfgTest, stUnhealthy]) rfl hfr
  exact ⟨resp, stUnhealthy, tr, h,
    response_invariant cfgTest envWithinInterval stUnhealthy "q" [] resp stUnhealthy tr h⟩

/-- Claim C3, counterexample. The claim says the resilient multi-provider path
(`AIService.generateResponse`) is never invoked by `smartSearch`.  With an AI
service registered — which the production route wiring does via
`embeddingService.setAIService(aiService)` — a concrete smart-search call
reaches `AIService.generateResponse` through
`embeddingService.generateSmartResponse`: the invocation flag is true. -/
theorem smartSearch_invokes_resilient_path_counterexample :
    (smartSearch Rat.sqrt (.ok [1]) [] (7/10) 5
        (some (cfgTest, envWithinInterval, stUnhealthy)) "q").2.2 = true := by
  have hv : vectorSearch Rat.sqrt (.ok [1]) [] (7/10) 5 = .ok [] := by
    simp [vectorSearch, findSimilarDocuments, mapExcept, List.mergeSort_nil]
  cases hg : (generateResponse cfgTest envWithinInterval stUnhealthy "q" []).1 with
  | ok r => simp [smartSearch, hv, generateSmartResponse, hg]
  | error e => simp [smartSearch, hv, generateSmartResponse, hg]

/-- Claim C3, amended. `smartSearch` always routes the answer through
`embeddingService.generateSmartResponse` (the direct `aiService` branch in
`smartSearch` itself is commented out), but `generateSmartResponse` invokes
`AIService.generateResponse` whenever an AI service is set: the resilient
multi-provider path is exercised exactly when an AI service is registered and
the vector search succeeds. -/
theorem smartSearch_resilient_path_iff (sqrt : ℚ → ℚ)
    (embResult : Except String (List ℚ)) (docs : List PromptDocument)
    (threshold : ℚ) (limit : Nat)
    (ai : Option (AIServiceConfig × ProviderEnv × AIServiceState))
    (query : String) :
    (smartSearch sqrt embResult docs threshold limit ai query).2.2 = true ↔
      ai.isSome = true ∧
        ∃ sims, vectorSearch sqrt embResult docs threshold limit = .ok sims := by
  cases hv : vectorSearch sqrt embResult docs threshold limit with
  | error e =>
    constructor
    · intro h
      simp [smartSearch, hv] at h
    · rintro ⟨_, sims, hsims⟩
      exact Except.noConfusion hsims
  | ok sims =>
    cases ai with
    | none =>
      constructor
      · intro h
        simp [smartSearch, hv, generateSmartResponse] at h
      · rintro ⟨hsome, _⟩
        exact Bool.noConfusion hsome
    | some a =>
      obtain ⟨cfg, env, st⟩ := a
      constructor
      · intro _
        exact ⟨rfl, sims, rfl⟩
      · intro _
        cases hg : (generateResponse cfg env st query sims).1 with
        | ok r => simp [smartSearch, hv, generateSmartResponse, hg]
        | error e => simp [smartSearch, hv, generateSmartResponse, hg]
